import Mathlib

/-!
Verification of the pytae example-notebook repository.

The repository contains two notebooks that exercise the pytae plotting
library: a plotting notebook (two chained `Plotter` sessions) and an
exploratory-utilities notebook (ad-hoc DataFrame accessor calls).  The
library implementation itself is not part of the repository, so the
embedding below records the call sites faithfully (operation sequences,
keyword arguments as written) and, where a claim concerns behaviour of
the absent library, models that behaviour from the specification.
-/

/-- One chained operation on a `Plotter` session, as written at a call
site: selecting a data source, issuing a plot with its keyword
arguments (argument name paired with the argument text as written), or
finalizing the figure. -/
inductive Op where
  | data : String → Op
  | plot : List (String × String) → Op
  | finalize : List (String × String) → Op
deriving DecidableEq, Repr

/-- A `Plotter` session call site: the mosaic-layout string passed to
the constructor, the constructor argument shapes as written
(positional argument texts and keyword argument names with texts), and
the chained operation sequence. -/
structure Session where
  mosaic : String
  ctorPositional : List String
  ctorKeywords : List (String × String)
  ops : List Op
deriving DecidableEq, Repr

/-- Look up a keyword argument by name at a call site. -/
def kwarg (kws : List (String × String)) (k : String) : Option String :=
  kws.lookup k

/-- Mosaic layout of the first plotting session (triple-quoted string
in the notebook, including its leading and trailing newline). -/
def mosaic1 : String := "\nABC\nDEF\nGHI\nJJJ\n"

/-- Mosaic layout of the second plotting session. -/
def mosaic2 : String := "\nAB\nCD\n"

/-- First chained session of the plotting notebook, operation by
operation in source order. -/
def session1 : Session :=
  { mosaic := mosaic1
    ctorPositional := ["mosaic"]
    ctorKeywords := [("figsize", "(12, 12)")]
    ops :=
    [ Op.data ("fmri")
    , Op.plot [("x", "timepoint"), ("y", "signal"), ("by", "event"),
        ("aggfunc", "mean"), ("color", "color"), ("style", "style"),
        ("width", "width"), ("on", "A"), ("title", "region & event"),
        ("kind", "line")]
    , Op.plot [("x", "timepoint"), ("y", "signal"), ("by", "region"),
        ("kind", "bar"), ("stacked", "True"), ("on", "A"),
        ("color", "color"), ("aggfunc", "mean")]
    , Op.data ("tips")
    , Op.plot [("x", "day"), ("y", "total_bill"), ("by", "sex"),
        ("aggfunc", "mean"), ("on", "B^"), ("kind", "bar"),
        ("color", "color"), ("title", "avg bill by sex")]
    , Op.plot [("x", "size"), ("y", "tip"), ("by", "smoker"),
        ("on", "C"), ("kind", "barh"), ("color", "color"),
        ("title", "avg tips by smoker status")]
    , Op.data ("tips")
    , Op.plot [("kind", "scatter"), ("x", "total_bill"), ("y", "tip"),
        ("on", "D"), ("marker", "x"), ("s", "5"), ("c", "day"),
        ("cmap", "viridis"), ("title", "scatter plot demo")]
    , Op.data ("tips")
    , Op.plot [("kind", "hexbin"), ("x", "total_bill"), ("y", "tip"),
        ("on", "E"), ("C", "size"), ("reduce_C_function", "np.sum"),
        ("cmap", "viridis"), ("gridsize", "20"), ("title", "hexbin demo")]
    , Op.data ("tips")
    , Op.plot [("kind", "pie"), ("y", "tip"), ("by", "time"),
        ("on", "F"), ("aggfunc", "mean"), ("autopct", "%1.1f%%"),
        ("colors", "color"), ("explode", "(0,0.05)"),
        ("title", "pie demo")]
    , Op.data ("healthexp")
    , Op.plot [("kind", "area"), ("x", "Year"), ("y", "Spending_USD"),
        ("aggfunc", "mean"), ("on", "G^"), ("legend", "False"),
        ("by", "Country"), ("title", "area plot demo")]
    , Op.data ("tips")
    , Op.plot [("kind", "kde"), ("on", "H^"), ("by", "day"),
        ("column", "tip"), ("title", "kde by days")]
    , Op.plot [("kind", "kde"), ("column", "tip"), ("on", "H"),
        ("by", "sex")]
    , Op.plot [("kind", "density"), ("on", "I"), ("by", "day"),
        ("column", "tip"), ("title", "density by days")]
    , Op.data ("fmri")
    , Op.plot [("kind", "hist"), ("column", "signal"), ("by", "event"),
        ("on", "J"), ("bins", "100")]
    , Op.finalize []
    ] }

/-- Second chained session of the plotting notebook. -/
def session2 : Session :=
  { mosaic := mosaic2
    ctorPositional := ["mosaic"]
    ctorKeywords := [("figsize", "(8,8)")]
    ops :=
    [ Op.data ("fmri")
    , Op.plot [("x", "timepoint"), ("y", "signal"), ("by", "event"),
        ("aggfunc", "mean"), ("color", "color"), ("style", "style"),
        ("width", "width"), ("on", "A"), ("title", "region & event"),
        ("kind", "line")]
    , Op.plot [("x", "timepoint"), ("y", "signal"), ("by", "region"),
        ("kind", "bar"), ("stacked", "True"), ("on", "A"),
        ("color", "color"), ("aggfunc", "mean")]
    , Op.data ("tips")
    , Op.plot [("x", "day"), ("y", "total_bill"), ("by", "sex"),
        ("aggfunc", "mean"), ("on", "B"), ("kind", "bar"),
        ("color", "color"), ("title", "avg bill by sex"),
        ("secondary_y", "True")]
    , Op.plot [("x", "size"), ("y", "tip"), ("by", "smoker"),
        ("on", "C"), ("kind", "barh"), ("color", "color"),
        ("title", "avg tips by smoker status")]
    , Op.data ("healthexp")
    , Op.plot [("kind", "area"), ("x", "Year"), ("y", "Spending_USD"),
        ("aggfunc", "mean"), ("on", "D"), ("by", "Country"),
        ("title", "area plot demo"), ("secondary_y", "True"),
        ("legend", "False")]
    , Op.finalize []
    ] }

/-- The two `Plotter` sessions appearing in the source. -/
def sessions : List Session := [session1, session2]

/-- The keyword-argument lists of the plot operations of an operation
sequence, in source order. -/
def plotCalls (ops : List Op) : List (List (String × String)) :=
  ops.filterMap (fun o => match o with
    | Op.plot kws => some kws
    | _ => none)

/-- The `on` argument text of a plot call (empty when absent). -/
def argOn (kws : List (String × String)) : String :=
  (kwarg kws ("on")).getD ("")

/-- The `kind` argument of a plot call, when given. -/
def argKind (kws : List (String × String)) : Option String :=
  kwarg kws ("kind")

/-- A trailing caret on an `on` value marks the secondary axis; the
cell label is the value with that marker removed. -/
def stripCaret (s : String) : String :=
  match s.toList.getLast? with
  | some c => if c = '^' then ((s.toList.dropLast).asString) else s
  | none => s

/-- An `on` value is a single-letter mosaic cell label exactly when it
is one alphabetic character occurring in the mosaic-layout string. -/
def isCellLabel (mosaic : String) (s : String) : Bool :=
  match s.toList with
  | [c] => c.isAlpha && mosaic.toList.contains c
  | _ => false

/-- Every `(mosaic, on-value)` pair of the plot calls in the source. -/
def allOnValues : List (String × String) :=
  sessions.flatMap (fun s => (plotCalls s.ops).map (fun c => (s.mosaic, argOn c)))

/-- The pytae DataFrame accessor invocations of the
exploratory-utilities notebook, in cell order (standard pandas calls
such as head are not pytae accessors; a commented-out call is not an
invocation). -/
def exploratoryCalls : List String :=
  ["cols", "group_x", "handle_missing", "clip",
   "select", "select", "select", "select", "select"]

/-- The four exploratory operations named by the specification. -/
def specFourAccessors : List String :=
  ["select", "group_x", "handle_missing", "clip"]

/-- The exploratory accessors actually invoked in the source. -/
def fiveAccessors : List String :=
  ["cols", "select", "group_x", "handle_missing", "clip"]

/-- The fixed set of plot kinds named by the specification. -/
def kindSet : List String :=
  ["line", "bar", "barh", "scatter", "hexbin", "pie", "area",
   "kde", "density", "hist"]

/-- Every `kind` argument given by a plot call in the source, in
source order. -/
def allKinds : List String :=
  sessions.flatMap (fun s => (plotCalls s.ops).filterMap argKind)

/-- Operational reading of `data`: run the chain threading the active
dataset, yielding for each plot operation the dataset active when it
executes (`none` when no `data` call has happened yet). -/
def plotDatasets (cur : Option String) : List Op → List (Option String)
  | [] => []
  | Op.data d :: t => plotDatasets (some d) t
  | Op.plot _ :: t => cur :: plotDatasets cur t
  | Op.finalize _ :: t => plotDatasets cur t

/-- The most recent `data` source in an operation sequence, when any. -/
def lastData (ops : List Op) : Option String :=
  ops.reverse.findSome? (fun o => match o with
    | Op.data d => some d
    | _ => none)

/-- For each position holding a plot operation, the source supplied by
the most recent preceding `data` operation of the chain. -/
def precedingData (ops : List Op) : List (Option String) :=
  (List.range ops.length).filterMap (fun i =>
    match ops[i]? with
    | some (Op.plot _) => some (lastData (ops.take i))
    | _ => none)

/-- Source text of code cell 1 of the plotting notebook, transcribed verbatim. -/
def plotCell1 : String :=
  "import numpy as np\nimport pandas as pd\nimport pytae as pt\n\nfmri = pt.sample_data[\x27fmri\x27]\ntips = pt.sample_data[\x27tips\x27]\nhealthexp = pt.sample_data[\x27healthexp\x27]\n\n\ncolor=\x7b\x27cue\x27: \x27blue\x27, \x27stim\x27: \x27black\x27, \x27parietal\x27: \x27red\x27,\n       \x27frontal\x27: \x27green\x27,\x27Male\x27:\x27blue\x27,\x27Female\x27:\x27pink\x27,\x27Dinner\x27:\x27green\x27,\n       \x27Lunch\x27:\x27orange\x27,\x27Yes\x27:\x27grey\x27,\x27No\x27:\x27brown\x27\x7d\n\nstyle=\x7b\x27cue\x27:\x27\x2d\x27,\x27stim\x27:\x27\x2d\x2d\x27\x7d\nwidth=\x7b\x27cue\x27:3,\x27stim\x27:1\x7d\nmarker = \x7b\x27Male\x27: \x27o\x27, \x27Female\x27: \x27x\x27\x7d\nsize=\x7b\x27Male\x27: 10,\x27Female\x27: 20\x7d\n\nmosaic = \"\"\"\nABC\nDEF\nGHI\nJJJ\n\"\"\"\nk = pt.Plotter(mosaic,figsize=(12, 12))\n\n(k\n.data(fmri)\n.plot(x=\x27timepoint\x27, y=\x27signal\x27,by=\x27event\x27,aggfunc=\x27mean\x27,color=color,style=style,width=width,\n      on=\x27A\x27,title=\x27region & event\x27,kind=\x27line\x27)\n.plot(x=\x27timepoint\x27, y=\x27signal\x27,by=\x27region\x27,kind=\x27bar\x27,stacked=True,on=\x27A\x27,color=color,aggfunc=\x27mean\x27)\n.data(tips)\n.plot(x=\x27day\x27,y=\x27total_bill\x27,by=\x27sex\x27,aggfunc=\x27mean\x27,on=\x27B^\x27,kind=\x27bar\x27,color=color,\n      title=\x27avg bill by sex\x27)\n.plot(x=\x27size\x27,y=\x27tip\x27,by=\x27smoker\x27,on=\x27C\x27,kind=\x27barh\x27,color=color,title=\x27avg tips by smoker status\x27)\n.data(tips)\n.plot(kind=\x27scatter\x27,x=\x27total_bill\x27,y=\x27tip\x27,on=\x27D\x27,marker=\x27x\x27,s=5,c=\x27day\x27,cmap=\x27viridis\x27,title=\x27scatter plot demo\x27)\n.data(tips)\n.plot(kind=\x27hexbin\x27,x=\x27total_bill\x27,y=\x27tip\x27,on=\x27E\x27,C=\x27size\x27,reduce_C_function=np.sum,cmap=\"viridis\",gridsize=20,title=\x27hexbin demo\x27)\n.data(tips)\n.plot(kind=\x27pie\x27,y=\x27tip\x27,by=\x27time\x27,on=\x27F\x27,aggfunc=\x27mean\x27, autopct=\x27%1.1f%%\x27,colors=color,explode=(0,0.05),title=\x27pie demo\x27) #for pie matplotlib says colors and not color\n.data(healthexp)\n.plot(kind=\x27area\x27,x=\x27Year\x27,y=\x27Spending_USD\x27,aggfunc=\x27mean\x27,on=\x27G^\x27,legend=False, by=\"Country\",title=\x27area plot demo\x27)\n.data(tips)\n\n.plot(kind=\x27kde\x27,on=\x27H^\x27,by=\x27day\x27,column=\x27tip\x27,title=\x27kde by days\x27)# ,secondary_y=True)\n .plot(kind=\x27kde\x27,column=\x27tip\x27,on=\x27H\x27, by=\"sex\")\n.plot(kind=\x27density\x27,on=\x27I\x27,by=\x27day\x27,column=\x27tip\x27,title=\x27density by days\x27 )\n.data(fmri)\n.plot(kind=\x27hist\x27,column=\x27signal\x27,by=\x27event\x27,on=\x27J\x27,bins=100)\n# .finalize(consolidate_legends=True,ncols=4) \n.finalize()\n\n)\n\n\n\nk.fig\n\n\n    "

/-- Source text of code cell 2 of the plotting notebook, transcribed verbatim. -/
def plotCell2 : String :=
  "mosaic = \"\"\"\nAB\nCD\n\"\"\"\nk = pt.Plotter(mosaic,figsize=(8,8))\n\n(k\n.data(fmri)\n.plot(x=\x27timepoint\x27, y=\x27signal\x27,by=\x27event\x27,aggfunc=\x27mean\x27,color=color,style=style,width=width,\n      on=\x27A\x27,title=\x27region & event\x27,kind=\x27line\x27)\n.plot(x=\x27timepoint\x27, y=\x27signal\x27,by=\x27region\x27,kind=\x27bar\x27,stacked=True,on=\x27A\x27,color=color,aggfunc=\x27mean\x27)\n.data(tips)\n.plot(x=\x27day\x27,y=\x27total_bill\x27,by=\x27sex\x27,aggfunc=\x27mean\x27,on=\x27B\x27,kind=\x27bar\x27,color=color,\n      title=\x27avg bill by sex\x27,secondary_y=True)\n.plot(x=\x27size\x27,y=\x27tip\x27,by=\x27smoker\x27,on=\x27C\x27,kind=\x27barh\x27,color=color,title=\x27avg tips by smoker status\x27)\n.data(healthexp)\n.plot(kind=\x27area\x27,x=\x27Year\x27,y=\x27Spending_USD\x27,aggfunc=\x27mean\x27,on=\x27D\x27, \n      by=\"Country\",title=\x27area plot demo\x27,secondary_y=True,legend=False)\n\n# .finalize(consolidate_legends=True,ncols=2, bbox_to_anchor=(0.8, \x2d0.005)) \n.finalize()\n)\n\n# Todo: remove (right label if consolidate_legend is not used)\n\n\nk.fig"

/-- Source text of code cell 3 of the plotting notebook, transcribed verbatim. -/
def plotCell3 : String :=
  "k.plot_kwargs_store[\x27A\x27][\x27kind\x27]"

/-- Source text of code cell 4 of the plotting notebook, transcribed verbatim. -/
def plotCell4 : String :=
  "penguins = pt.sample_data[\x27penguins\x27]\npenguins\n# penguins.group_x(group=[\x27island\x27,\x27species\x27,\x27sex\x27])"

/-- Source text of code cell 1 of the exploratory-utilities notebook, transcribed verbatim. -/
def utilCell1 : String :=
  "import numpy as np\nimport pandas as pd\nimport pytae as pt\nimport seaborn as sns\npenguins = sns.load_dataset(\x27penguins\x27)"

/-- Source text of code cell 2 of the exploratory-utilities notebook, transcribed verbatim. -/
def utilCell2 : String :=
  "# get a list of columns\npenguins.cols()"

/-- Source text of code cell 3 of the exploratory-utilities notebook, transcribed verbatim. -/
def utilCell3 : String :=
  "#add a group count\ndf = (\n    penguins\n    .group_x()\n)\ndf.head()"

/-- Source text of code cell 4 of the exploratory-utilities notebook, transcribed verbatim. -/
def utilCell4 : String :=
  "# handle missing i.e. str missing or NaN is changed to . and numeric NaN to 0\n\ndf = (\n    penguins\n    .handle_missing(fillna=\x27$\x27)\n)\ndf.head()\n"

/-- Source text of code cell 5 of the exploratory-utilities notebook, transcribed verbatim. -/
def utilCell5 : String :=
  "df.clip()"

/-- Source text of code cell 6 of the exploratory-utilities notebook, transcribed verbatim. -/
def utilCell6 : String :=
  "penguins\n"

/-- Source text of code cell 7 of the exploratory-utilities notebook, transcribed verbatim. -/
def utilCell7 : String :=
  "penguins.select(\x27spe|sex|^n|^bi\x27)"

/-- Source text of code cell 8 of the exploratory-utilities notebook, transcribed verbatim. -/
def utilCell8 : String :=
  "penguins.select([\x27species\x27,\x27n\x27])"

/-- Source text of code cell 9 of the exploratory-utilities notebook, transcribed verbatim. -/
def utilCell9 : String :=
  "df = pd.DataFrame(np.arange(12).reshape(3, 4),\n                  columns=[\x27A\x27, \x27B_X\x27, \x27B\x27, \x27C\x27])\n\nprint(\x27original df\x27)\nprint(df)\n\nprint(\x27\\nselect using a list\x27)\nprint(df.select([\x27A\x27,\x27B_X\x27]))\n\nprint(\x27\\nselect using a regex\x27)\nprint(df.select(\x27^B|C\x27))\n\nprint(\x27\\nselect using a tuple of list and  regex\x27)\nprint(df.select(([\x27A\x27,\x27B_X\x27],\x27^B|C\x27)))"

/-- Every non-empty code cell of the two notebooks. -/
def notebookCells : List String :=
  [plotCell1, plotCell2, plotCell3, plotCell4, utilCell1, utilCell2, utilCell3, utilCell4, utilCell5, utilCell6, utilCell7, utilCell8, utilCell9]

/-- Whether the pattern occurs as a contiguous substring. -/
def occursIn (pat : List Char) : List Char → Bool
  | [] => pat.isEmpty
  | c :: t => pat.isPrefixOf (c :: t) || occursIn pat t

/-- Textual markers of Python error handling: a try block, an except
clause, a raise statement, an assertion, an exception name. -/
def errorHandlingPatterns : List String :=
  ["try:", "except", "raise", "assert", "Error"]

/-- Modelled from the spec: the pytae `Plotter` implementation is
absent from the repository.  Per the specification, a session is
constructed from a mosaic-layout string and a size hint; `data`
switches the active dataset; `plot` records its keyword arguments in a
dictionary-like store keyed by mosaic cell label; `finalize` assembles
the figure exposed through the `fig` accessor; each chained call
returns the session object, modelled as state passing. -/
structure Plotter where
  mosaic : String
  figsize : String
  activeData : Option String
  plot_kwargs_store : List (String × List (String × String))
  fig : Bool
deriving DecidableEq, Repr

/-- Modelled from the spec: the session constructor, taking the
mosaic-layout string and the figsize hint as written. -/
def mkPlotter (mosaic : String) (figsize : String) : Plotter :=
  { mosaic := mosaic, figsize := figsize, activeData := none,
    plot_kwargs_store := [], fig := false }

/-- Replace the entry at a key, or append it when absent. -/
def upsert (k : String) (v : List (String × String)) :
    List (String × List (String × String)) →
    List (String × List (String × String))
  | [] => [(k, v)]
  | e :: t => if e.1 = k then (k, v) :: t else e :: upsert k v t

/-- Modelled from the spec: `data` switches the active dataset for
subsequent plot calls and returns the session. -/
def Plotter.data (p : Plotter) (d : String) : Plotter :=
  { p with activeData := some d }

/-- Modelled from the spec: `plot` records the call's keyword
arguments in the store under the targeted mosaic cell label (the `on`
value without its secondary-axis caret) and returns the session. -/
def Plotter.plot (p : Plotter) (kws : List (String × String)) : Plotter :=
  { p with plot_kwargs_store :=
      upsert (stripCaret (argOn kws)) kws p.plot_kwargs_store }

/-- Modelled from the spec: `finalize` assembles the figure and
returns the session. -/
def Plotter.finalize (p : Plotter) (kws : List (String × String)) : Plotter :=
  let _ := kws
  { p with fig := true }

/-- Apply one chained operation to a session. -/
def Plotter.step (p : Plotter) : Op → Plotter
  | Op.data d => p.data d
  | Op.plot kws => p.plot kws
  | Op.finalize kws => p.finalize kws

/-- Run a whole chain of operations on a session. -/
def Plotter.run (p : Plotter) (ops : List Op) : Plotter :=
  ops.foldl Plotter.step p

/-- The session state after the first session's chain. -/
def finalState1 : Plotter :=
  (mkPlotter mosaic1 ("(12, 12)")).run session1.ops

/-- The session state after the second session's chain. -/
def finalState2 : Plotter :=
  (mkPlotter mosaic2 ("(8,8)")).run session2.ops

/-- The mosaic cell labels targeted by the plot operations of a chain,
in source order. -/
def targetedLabels (ops : List Op) : List String :=
  (plotCalls ops).map (fun c => stripCaret (argOn c))

/-- The plot calls of the first session, in source order. -/
def plots1 : List (List (String × String)) := plotCalls session1.ops

/-- Keyword arguments of the first plot call on cell `A` (the line
plot). -/
def kwAline : List (String × String) := (plots1[0]?).getD []

/-- Keyword arguments of the second plot call on cell `A` (the stacked
bar plot). -/
def kwAbar : List (String × String) := (plots1[1]?).getD []

/-- Keyword arguments of the first kde plot on cell `H` (targeting the
secondary axis via `H^`). -/
def kwHfirst : List (String × String) := (plots1[8]?).getD []

/-- Keyword arguments of the second kde plot on cell `H`. -/
def kwHsecond : List (String × String) := (plots1[9]?).getD []

/-- The three argument shapes passed to the `select` accessor in the
exploratory-utilities notebook: a list of column names, a regex
string, and a tuple of a list and a regex. -/
inductive SelectArg where
  | byList : List String → SelectArg
  | byRegex : String → SelectArg
  | byTuple : List String → String → SelectArg
deriving DecidableEq, Repr

/-- A DataFrame reduced to its column-name sequence, the part of its
state that `select` acts on. -/
structure Df where
  columns : List String
deriving DecidableEq, Repr

/-- Split a regex pattern at its alternation bars. -/
def splitBar (cur : List Char) : List Char → List (List Char)
  | [] => [cur.reverse]
  | c :: t => if c = '|' then cur.reverse :: splitBar [] t else splitBar (c :: cur) t

/-- Match one literal alternative against a column name with Python
re.search semantics: a leading caret anchors the alternative at the
start, otherwise it may occur anywhere. -/
def matchAlt (alt : List Char) (s : List Char) : Bool :=
  match alt with
  | '^' :: rest => rest.isPrefixOf s
  | _ => occursIn alt s

/-- Whether a column name matches an alternation of literal
alternatives, as the notebook's regex arguments are shaped. -/
def reSearch (pat : String) (s : String) : Bool :=
  (splitBar [] pat.toList).any (fun alt => matchAlt alt s.toList)

/-- Modelled from the spec: the `select` accessor implementation is
absent from the repository.  The exploratory-utilities notebook
demonstrates it on a list of column names (yielding exactly the listed
columns in order), on a regex string (yielding the columns matching
it), and on a tuple of list and regex (yielding the listed columns
together with the additional regex matches). -/
def Df.select (df : Df) (a : SelectArg) : Df :=
  match a with
  | SelectArg.byList cols => ⟨cols.filter (fun c => df.columns.contains c)⟩
  | SelectArg.byRegex pat => ⟨df.columns.filter (fun c => reSearch pat c)⟩
  | SelectArg.byTuple cols pat =>
      ⟨(cols.filter (fun c => df.columns.contains c))
        ++ df.columns.filter (fun c => reSearch pat c && !(cols.contains c))⟩

/-- The frame constructed inline in the `select` demonstration cell. -/
def demoDf : Df := ⟨["A", "B_X", "B", "C"]⟩

/-- A DataFrame cell for the missing-value model: a present or missing
string, or a present or missing numeric. -/
inductive Cell where
  | sVal : String → Cell
  | sNA : Cell
  | nVal : Int → Cell
  | nNA : Cell
deriving DecidableEq, Repr

/-- Modelled from the spec: fill one cell the way the
exploratory-utilities notebook describes `handle_missing` — a missing
string becomes the supplied fill string, a missing numeric becomes 0,
anything present is kept. -/
def fillCell (fillna : String) : Cell → Cell
  | Cell.sNA => Cell.sVal fillna
  | Cell.nNA => Cell.nVal 0
  | c => c

/-- Modelled from the spec: the `handle_missing` accessor
implementation is absent from the repository; it fills every cell of
every column of the frame. -/
def handle_missing (fillna : String) (df : List (List Cell)) : List (List Cell) :=
  df.map (fun col => col.map (fillCell fillna))

/-- C1 counterexample: the plot call with `on` value `B^` in the first
session passes a two-character value, not a single-letter mosaic cell
label, refuting the claim as stated at that concrete call site. -/
theorem C1_counterexample :
    (mosaic1, ("B^" : String)) ∈ allOnValues
    ∧ isCellLabel mosaic1 ("B^") = false := by decide

/-- C1 (amended): for every plot call in the source, the `on` value
with its optional trailing secondary-axis caret removed is a
single-letter mosaic cell label of the session it belongs to. -/
theorem C1_cell_labels :
    allOnValues.all (fun p => isCellLabel p.1 (stripCaret p.2)) = true := by
  decide

/-- C2 counterexample: the exploratory-utilities notebook invokes the
accessor `cols`, which is not among the four operations named by the
claim. -/
theorem C2_counterexample :
    ("cols" : String) ∈ exploratoryCalls
    ∧ ("cols" : String) ∉ specFourAccessors := by decide

/-- C2 (amended): every ad-hoc exploratory DataFrame accessor invoked
in the source is one of the five operations cols, select, group_x,
handle_missing, clip. -/
theorem C2_accessors :
    exploratoryCalls.all (fun c => fiveAccessors.contains c) = true := by
  decide

/-- C3: every `kind` argument given at a plot call site is drawn from
the fixed set of ten plot kinds, and each of the ten kinds is
exercised by at least one call site. -/
theorem C3_kinds :
    (sessions.all (fun s => (plotCalls s.ops).all (fun c =>
        match argKind c with
        | some k => kindSet.contains k
        | none => true)) = true)
    ∧ (kindSet.all (fun k => allKinds.contains k) = true) := by
  constructor
  · decide
  · decide

/-- C4: in both chained sessions, every plot operation has a preceding
`data` operation (so no plot occurs before the first `data` call), and
the dataset in effect at each plot operation under the threaded
semantics is exactly the one supplied by the most recent preceding
`data` call. -/
theorem C4_dataset_in_effect :
    (sessions.all (fun s => (precedingData s.ops).all (fun d => d.isSome)) = true)
    ∧ plotDatasets none session1.ops = precedingData session1.ops
    ∧ plotDatasets none session2.ops = precedingData session2.ops := by
  refine ⟨by decide, by decide, by decide⟩

set_option maxRecDepth 100000 in
/-- C7: no code cell of either notebook contains any error-handling
construct: no try block, except clause, raise, assertion, or
exception-type mention occurs anywhere in the source text. -/
theorem C7_no_error_handling :
    notebookCells.all (fun c =>
      errorHandlingPatterns.all (fun p => !(occursIn p.toList c.toList))) = true := by
  decide

/-- C5: each `Plotter` call site in the source passes exactly one
positional mosaic-layout argument and exactly the keyword `figsize`;
and in the session model every chained operation returns the same
session (its constructor identity unchanged), so a chain extended by
one more call is that call applied to the session the chain returned. -/
theorem C5_session_chaining :
    (sessions.all (fun s =>
        s.ctorPositional = ["mosaic"]
        && s.ctorKeywords.map Prod.fst = ["figsize"]) = true)
    ∧ (∀ (p : Plotter) (o : Op),
        (p.step o).mosaic = p.mosaic ∧ (p.step o).figsize = p.figsize)
    ∧ (∀ (p : Plotter) (ops : List Op) (o : Op),
        p.run (ops ++ [o]) = (p.run ops).step o) := by
  refine ⟨by decide, ?_, ?_⟩
  · intro p o
    cases o <;> exact ⟨rfl, rfl⟩
  · intro p ops o
    simp [Plotter.run]

/-- C6: after each chain's `finalize`, the session's figure is
assembled and exposed through `fig`, the store's keys are
single-letter mosaic cell labels whose entries are keyword-argument
records of plot calls of that chain, every targeted label has a store
entry carrying a `kind` entry, and in particular the store entry at
label `A` read by the notebook after the second chain carries its
`kind` entry. -/
theorem C6_fig_and_store :
    finalState1.fig = true ∧ finalState2.fig = true
    ∧ ((targetedLabels session1.ops).all (fun L =>
        match finalState1.plot_kwargs_store.lookup L with
        | some kws => (argKind kws).isSome
        | none => false) = true)
    ∧ ((targetedLabels session2.ops).all (fun L =>
        match finalState2.plot_kwargs_store.lookup L with
        | some kws => (argKind kws).isSome
        | none => false) = true)
    ∧ (finalState1.plot_kwargs_store.all (fun e =>
        isCellLabel mosaic1 e.1
        && (plotCalls session1.ops).contains e.2) = true)
    ∧ (finalState2.plot_kwargs_store.all (fun e =>
        isCellLabel mosaic2 e.1
        && (plotCalls session2.ops).contains e.2) = true)
    ∧ ((match finalState2.plot_kwargs_store.lookup ("A") with
        | some kws => (argKind kws).isSome
        | none => false) = true) := by
  decide

/-- C10: within the first chain, two distinct plot calls target cell
label `A` (a line plot, then a stacked bar plot) and two distinct kde
plot calls target cell label `H`; after running the chain, the
label-keyed store holds only the later call's arguments for each of
those labels, and the earlier call's arguments appear nowhere in the
store, so a store keyed only by cell label cannot hold both calls'
arguments simultaneously. -/
theorem C10_label_collision :
    (stripCaret (argOn kwAline) = ("A" : String)
      ∧ stripCaret (argOn kwAbar) = ("A" : String)
      ∧ argKind kwAline = some ("line") ∧ argKind kwAbar = some ("bar")
      ∧ kwAline ≠ kwAbar)
    ∧ (stripCaret (argOn kwHfirst) = ("H" : String)
      ∧ stripCaret (argOn kwHsecond) = ("H" : String)
      ∧ argKind kwHfirst = some ("kde") ∧ argKind kwHsecond = some ("kde")
      ∧ kwHfirst ≠ kwHsecond)
    ∧ finalState1.plot_kwargs_store.lookup ("A") = some kwAbar
    ∧ (finalState1.plot_kwargs_store.all (fun e => !(e.2 == kwAline)) = true)
    ∧ finalState1.plot_kwargs_store.lookup ("H") = some kwHsecond
    ∧ (finalState1.plot_kwargs_store.all (fun e => !(e.2 == kwHfirst)) = true) := by
  decide

/-- C8: `select` accepts the three demonstrated argument shapes; on
the demonstration frame with columns A, B_X, B, C the list form
yields exactly the listed columns in order, the regex form yields the
columns matching the pattern, and the tuple form yields the listed
columns together with the remaining regex matches. -/
theorem C8_select_shapes :
    (demoDf.select (SelectArg.byList ["A", "B_X"])).columns = ["A", "B_X"]
    ∧ (demoDf.select (SelectArg.byRegex ("^B|C"))).columns = ["B_X", "B", "C"]
    ∧ (demoDf.select (SelectArg.byTuple ["A", "B_X"] ("^B|C"))).columns
        = ["A", "B_X", "B", "C"] := by
  decide

/-- C9: for every frame and fill string, `handle_missing` relates each
cell to its image so that missing strings become the fill string,
missing numerics become 0, and present values are unchanged. -/
theorem C9_missing_values :
    ∀ (fillna : String) (df : List (List Cell)),
      List.Forall₂ (fun col col2 => List.Forall₂ (fun a b =>
        (a = Cell.sNA → b = Cell.sVal fillna)
        ∧ (a = Cell.nNA → b = Cell.nVal 0)
        ∧ (a ≠ Cell.sNA → a ≠ Cell.nNA → b = a)) col col2)
        df (handle_missing fillna df) := by
  intro fillna df
  unfold handle_missing
  induction df with
  | nil => exact List.Forall₂.nil
  | cons col t ih =>
    refine List.Forall₂.cons ?_ ih
    induction col with
    | nil => exact List.Forall₂.nil
    | cons a s ih2 =>
      refine List.Forall₂.cons ?_ ih2
      cases a <;> simp [fillCell]

/-- C9 at the notebook's concrete fill string on a small concrete
frame with one missing string and one missing numeric. -/
theorem C9_missing_values_witness :
    List.Forall₂ (fun col col2 => List.Forall₂ (fun a b =>
      (a = Cell.sNA → b = Cell.sVal ("$"))
      ∧ (a = Cell.nNA → b = Cell.nVal 0)
      ∧ (a ≠ Cell.sNA → a ≠ Cell.nNA → b = a)) col col2)
      [[Cell.sNA, Cell.sVal ("x")], [Cell.nNA, Cell.nVal 7]]
      (handle_missing ("$") [[Cell.sNA, Cell.sVal ("x")], [Cell.nNA, Cell.nVal 7]]) :=
  C9_missing_values ("$") [[Cell.sNA, Cell.sVal ("x")], [Cell.nNA, Cell.nVal 7]]
